import Mathlib

/-!
Shallow embedding of the Bridge Service review-session orchestrator
(`bridge` server, `processReview` and the `/api/v1/review/*` routes).

The session record, the Redis-backed session store helpers
(`saveSession`, `getSession`, `updateSession`), the background driver
(`processReview`) and the HTTP route handlers (submit, status, report,
fix, delete) are translated field-by-field from the source.  External
collaborators (the Council analysis service and the Sandbox execution
service) are modelled as oracles: the result each `await`ed HTTP call
would produce is an explicit parameter, covering success, structured
failure and transport failure (axios throwing on timeout/unreachable)
uniformly as `Except String _`, matching the `try/catch` wrappers
`callCouncil` / `callSandbox` which rethrow every failure as an
`Error` with a message.
-/

namespace Bridge

/-- Per-capability agent entry as stored in `session.agents`
(`{name, status, score}` projected by the status route). -/
structure Agent where
  name : String
  status : String
  score : Option Nat
  deriving Repr, DecidableEq

/-- A finding inside `report.priority_fixes` (only the `severity`
field is inspected by the fix route's filter). -/
structure Finding where
  severity : String
  title : String
  deriving Repr, DecidableEq

/-- The aggregated report attached on completion
(`councilResponse.report`). -/
structure Report where
  priority_fixes : List Finding
  deriving Repr, DecidableEq

/-- The session object created by the submit route and mutated by
`processReview` via `updateSession`.  Timestamps are abstract `Nat`
ticks.  `report` and `error` are `Option`s: absent until the
corresponding update writes them. -/
structure Session where
  id : String
  code : String
  language : String
  context : String
  quality_gates : List String
  status : String
  progress : Nat
  agents : List Agent
  report : Option Report
  error : Option String
  created_at : Nat
  updated_at : Nat
  deriving Repr, DecidableEq

/-- The Redis keyspace restricted to `session:*` keys: an association
list from session id to session.  `redis.set` prepends after erasing
the old binding; `redis.get` is the first (hence only) lookup. -/
def Store := List (String × Session)

instance : DecidableEq Store := by
  unfold Store
  infer_instance

/-- `saveSession`: `redis.set('session:' + id, JSON.stringify(session), 'EX', 3600)`. -/
def saveSession (st : Store) (s : Session) : Store :=
  (s.id, s) :: (st.filter (fun p => !(p.1 == s.id)))

/-- `getSession`: `redis.get` then `JSON.parse`, `null` when absent. -/
def getSession (st : Store) (sessionId : String) : Option Session :=
  (st.filter (fun p => p.1 == sessionId)).head?.map (·.2)

/-- `redis.del('session:' + sessionId)` as used by the delete route. -/
def redisDel (st : Store) (sessionId : String) : Store :=
  st.filter (fun p => !(p.1 == sessionId))

/-- The `updates` object passed to `updateSession`: each field is
present (`some`) or absent from the object literal.  The driver only
ever passes these five keys. -/
structure Updates where
  status : Option String := none
  progress : Option Nat := none
  agents : Option (List Agent) := none
  report : Option (Option Report) := none
  error : Option String := none
  deriving Repr

/-- The merge `{ ...session, ...updates, updated_at: now }`. -/
def applyUpdates (s : Session) (u : Updates) (now : Nat) : Session :=
  { s with
    status := u.status.getD s.status
    progress := u.progress.getD s.progress
    agents := u.agents.getD s.agents
    report := u.report.getD s.report
    error := (u.error.map some).getD s.error
    updated_at := now }

/-- `updateSession`: fetch, throw `'Session not found'` when absent,
merge, save, return the updated session. -/
def updateSession (st : Store) (sessionId : String) (u : Updates)
    (now : Nat) : Except String (Store × Session) :=
  match getSession st sessionId with
  | none => .error "Session not found"
  | some s =>
      let updated := applyUpdates s u now
      .ok (saveSession st updated, updated)

/-- Council `/council/review` response: per-capability agents, the
aggregated report, and optional runnable artifacts (`test_code`,
`code_files`, `test_files`).  Fields the collaborator may omit are
`Option`s. -/
structure CouncilResponse where
  agents : Option (List Agent)
  report : Option Report
  test_code : Option String
  code_files : List (String × String)
  test_files : List (String × String)
  deriving Repr

/-- One entry of the sandbox execute response's `results`. -/
structure CommandResult where
  command : String
  exit_code : Nat
  output : String
  deriving Repr, DecidableEq

/-- What ends up in `councilResponse.test_results`: either the
`results` field of the execute response, or the `{error: message}`
object written by the sandbox catch block. -/
inductive TestResults where
  | fromExec (results : List CommandResult)
  | errorObj (message : String)
  deriving Repr, DecidableEq

/-- Outcome of each `await`ed collaborator HTTP call in one driver
run.  `.error msg` is the message of the `Error` rethrown by
`callCouncil` / `callSandbox` (transport failure, timeout, or a
structured remote failure — axios throws on all of them and the
wrapper rethrows with a uniform prefix). -/
structure Collaborators where
  council : Except String CouncilResponse
  sandboxCreate : Except String String
  sandboxExecute : Except String (List CommandResult)
  sandboxDelete : Except String Unit

/-- `session.language === 'python' ? 'python-3.11' : 'nodejs-18'`. -/
def sandboxEnvironment (language : String) : String :=
  if language == "python" then "python-3.11" else "nodejs-18"

/-- The command list chosen for the execute call. -/
def testCommands (language : String) : List String :=
  if language == "python" then ["pip install -r requirements.txt", "pytest"]
  else ["npm install", "npm test"]

/-- Observable sandbox API calls issued by the driver, in order. -/
inductive SandboxCall where
  | create (environment : String) (timeout : Nat)
  | execute (sandboxId : String) (commands : List String) (timeout : Nat)
  | delete (sandboxId : String)
  deriving Repr, DecidableEq

/-- Payload of one `io.to(sessionId).emit('progress', …)`. -/
structure ProgressEvent where
  status : String
  progress : Nat
  message : String
  report : Option Report := none
  deriving Repr, DecidableEq

/-- Everything one `processReview` invocation does that is observable:
the final keyspace, the successive sessions written to the store, the
`'progress'` events in emission order, the `'error'` events, the
sandbox API calls, and the final `councilResponse.test_results`. -/
structure Trace where
  store : Store
  history : List Session
  events : List ProgressEvent
  errorEvents : List String
  sandboxCalls : List SandboxCall
  test_results : Option TestResults

/-- The `catch (error)` block of `processReview`: transition to
`failed` with the cause; should that `updateSession` itself throw
(session gone), the whole rejection is swallowed by the caller's
`.catch` and no `'error'` event is emitted. -/
def catchPath (st : Store) (hist : List Session) (evs : List ProgressEvent)
    (calls : List SandboxCall) (tr : Option TestResults)
    (msg : String) (now : Nat) (sessionId : String) : Trace :=
  match updateSession st sessionId { status := some "failed", error := some msg } now with
  | .ok (st', s') =>
      { store := st', history := hist ++ [s'], events := evs,
        errorEvents := [msg], sandboxCalls := calls, test_results := tr }
  | .error _ =>
      { store := st, history := hist, events := evs,
        errorEvents := [], sandboxCalls := calls, test_results := tr }

/-- The inner `if (councilResponse.test_code) { try … catch }` block:
create the sandbox, execute the merged file set with the per-language
commands, delete the sandbox, and set `test_results` from the execute
response; any sandbox error is caught locally and recorded as
`test_results = {error}`.  Returns the sandbox calls issued and the
resulting `test_results`. -/
def sandboxPhase (env : Collaborators) (language : String)
    (cr : CouncilResponse) : List SandboxCall × Option TestResults :=
  match cr.test_code with
  | none => ([], none)
  | some _ =>
    match env.sandboxCreate with
    | .error msg =>
        ([.create (sandboxEnvironment language) 1800],
         some (.errorObj ("Sandbox service error: " ++ msg)))
    | .ok sandboxId =>
      match env.sandboxExecute with
      | .error msg =>
          ([.create (sandboxEnvironment language) 1800,
            .execute sandboxId (testCommands language) 300],
           some (.errorObj ("Sandbox service error: " ++ msg)))
      | .ok results =>
        match env.sandboxDelete with
        | .error msg =>
            ([.create (sandboxEnvironment language) 1800,
              .execute sandboxId (testCommands language) 300,
              .delete sandboxId],
             some (.errorObj ("Sandbox service error: " ++ msg)))
        | .ok _ =>
            ([.create (sandboxEnvironment language) 1800,
              .execute sandboxId (testCommands language) 300,
              .delete sandboxId],
             some (.fromExec results))

/-- The background driver `processReview(sessionId)`, with each
collaborator call's outcome supplied by `env`.  Mirrors the source
statement by statement: fetch the session (silently return if gone);
update to `analyzing`/10 and emit 10 then 20; call the Council;
update to `testing`/60 with the returned agents and emit 60; run the
sandbox phase when `test_code` is present; update to `completed`/100
attaching `councilResponse.report` and emit 100; any uncaught error
lands in `catchPath`. -/
def processReview (env : Collaborators) (st : Store) (sessionId : String)
    (now : Nat) : Trace :=
  match getSession st sessionId with
  | none =>
      { store := st, history := [], events := [], errorEvents := [],
        sandboxCalls := [], test_results := none }
  | some session =>
    match updateSession st sessionId { status := some "analyzing", progress := some 10 } now with
    | .error e => catchPath st [] [] [] none e now sessionId
    | .ok (st1, s1) =>
      let ev0 : List ProgressEvent :=
        [{ status := "analyzing", progress := 10, message := "Starting review..." },
         { status := "analyzing", progress := 20, message := "Sending to Council agents..." }]
      match env.council with
      | .error msg =>
          catchPath st1 [s1] ev0 [] none ("Council service error: " ++ msg) now sessionId
      | .ok cr =>
        match updateSession st1 sessionId
            { status := some "testing", progress := some 60,
              agents := some (cr.agents.getD []) } now with
        | .error e => catchPath st1 [s1] ev0 [] none e now sessionId
        | .ok (st2, s2) =>
          let ev1 := ev0 ++
            [{ status := "testing", progress := 60,
               message := "Running tests in sandbox..." }]
          let ct := sandboxPhase env session.language cr
          match updateSession st2 sessionId
              { status := some "completed", progress := some 100,
                report := some cr.report } now with
          | .error e => catchPath st2 [s1, s2] ev1 ct.1 ct.2 e now sessionId
          | .ok (st3, s3) =>
              { store := st3, history := [s1, s2, s3],
                events := ev1 ++
                  [{ status := "completed", progress := 100,
                     message := "Review complete!", report := cr.report }],
                errorEvents := [], sandboxCalls := ct.1, test_results := ct.2 }

/-- Body of `POST /api/v1/review/submit` after JSON destructuring:
each field is `none` when absent from the request body. -/
structure SubmitRequest where
  code : Option String
  language : Option String := none
  context : Option String := none
  quality_gates : Option (List String) := none

/-- Response of the submit route. -/
inductive SubmitResult where
  | badRequest (error : String)
  | ok (session_id : String) (status : String) (message : String)
  deriving Repr, DecidableEq

/-- The session object literal built by the submit route (destructuring
defaults: `language = 'javascript'`, `context = ''`,
`quality_gates = ['qa','security','performance']`). -/
def submitSession (req : SubmitRequest) (sessionId : String) (now : Nat) : Session :=
  { id := sessionId
    code := req.code.getD ""
    language := req.language.getD "javascript"
    context := req.context.getD ""
    quality_gates := req.quality_gates.getD ["qa", "security", "performance"]
    status := "pending"
    progress := 0
    agents := []
    report := none
    error := none
    created_at := now
    updated_at := now }

/-- `POST /api/v1/review/submit`: reject when `!code` (absent or empty
string), otherwise save the `pending` session synchronously and
respond; `processReview` is started afterwards in the background. -/
def submit (req : SubmitRequest) (st : Store) (sessionId : String)
    (now : Nat) : SubmitResult × Store :=
  if req.code = none ∨ req.code = some "" then
    (.badRequest "Code is required", st)
  else
    (.ok sessionId "pending" "Review started",
     saveSession st (submitSession req sessionId now))

/-- Response of the status route (the agents are projected to
`{name, status, score}`). -/
inductive StatusResult where
  | notFound (error : String)
  | ok (session_id : String) (status : String) (progress : Nat)
      (agents : List Agent)
  deriving Repr, DecidableEq

/-- `GET /api/v1/review/:sessionId/status`. -/
def getStatus (st : Store) (sessionId : String) : StatusResult :=
  match getSession st sessionId with
  | none => .notFound "Session not found"
  | some s =>
      .ok s.id s.status s.progress
        (s.agents.map fun a => { name := a.name, status := a.status, score := a.score })

/-- Response of the report route. -/
inductive ReportResult where
  | notFound (error : String)
  | notCompleted (error : String)
  | ok (session_id : String) (report : Option Report)
  deriving Repr, DecidableEq

/-- `GET /api/v1/review/:sessionId/report`. -/
def getReport (st : Store) (sessionId : String) : ReportResult :=
  match getSession st sessionId with
  | none => .notFound "Session not found"
  | some s =>
      if s.status != "completed" then .notCompleted "Review not completed yet"
      else .ok s.id s.report

/-- Council `/council/fix` response shape. -/
structure FixResponse where
  fixes_applied : Nat
  fixed_code : String
  changes : List String
  needs_review : Bool
  deriving Repr, DecidableEq

/-- Response of the fix route. -/
inductive FixResult where
  | notFound (error : String)
  | noReport (error : String)
  | councilError (error : String)
  | ok (session_id : String) (resp : FixResponse) (language : String)
  deriving Repr, DecidableEq

/-- `POST /api/v1/review/:sessionId/fix`: 404 when the session is
gone, 400 `'No report available'` when `session.report` is falsy,
otherwise forward `report.priority_fixes` filtered to the requested
severities (default `['critical','high']`) to `/council/fix`.  The
second component records the findings forwarded to the Council, when
that call was made. -/
def requestFix (councilFix : List Finding → Except String FixResponse)
    (st : Store) (sessionId : String) (fix_priorities : Option (List String)) :
    FixResult × Option (List Finding) :=
  match getSession st sessionId with
  | none => (.notFound "Session not found", none)
  | some s =>
    match s.report with
    | none => (.noReport "No report available", none)
    | some rep =>
      let prios := fix_priorities.getD ["critical", "high"]
      let findings := rep.priority_fixes.filter (fun f => prios.contains f.severity)
      match councilFix findings with
      | .error msg => (.councilError ("Council service error: " ++ msg), some findings)
      | .ok resp => (.ok s.id resp s.language, some findings)

/-- `DELETE /api/v1/review/:sessionId`: unconditional `redis.del` and
a constant acknowledgement. -/
def deleteReview (st : Store) (sessionId : String) : Store × String :=
  (redisDel st sessionId, "Session deleted")

/-- A valid submission followed by its background driver run: the
trace's history is the `pending` session written by submit followed by
the driver's writes.  Used to reason about full session lifetimes. -/
def runReview (req : SubmitRequest) (env : Collaborators) (st : Store)
    (sessionId : String) (now : Nat) : SubmitResult × Trace :=
  match submit req st sessionId now with
  | (.badRequest e, st') =>
      (.badRequest e,
       { store := st', history := [], events := [], errorEvents := [],
         sandboxCalls := [], test_results := none })
  | (r, st') =>
      let t := processReview env st' sessionId now
      (r, { t with history := submitSession req sessionId now :: t.history })

/-- Number of sandbox release (`DELETE /sandbox/:id`) calls in a trace. -/
def releaseCount (t : Trace) : Nat :=
  (t.sandboxCalls.filter fun c =>
    match c with
    | .delete _ => true
    | _ => false).length

/-- Whether a trace provisioned a sandbox (a create call succeeded, so
an execute or delete call on the returned handle follows). -/
def provisionCount (t : Trace) : Nat :=
  (t.sandboxCalls.filter fun c =>
    match c with
    | .create _ _ => true
    | _ => false).length

end Bridge

namespace Bridge

/-- Lookup immediately after save finds the saved session. -/
theorem getSession_saveSession (st : Store) (s : Session) :
    getSession (saveSession st s) s.id = some s := by
  simp [getSession, saveSession, List.filter]

/-- Lookup after `redis.del` of the same id misses. -/
theorem getSession_redisDel (st : Store) (sessionId : String) :
    getSession (redisDel st sessionId) sessionId = none := by
  simp only [getSession, redisDel, List.filter_filter]
  have h : (st.filter (fun p =>
      (p.1 == sessionId) && !(p.1 == sessionId))) = [] := by
    apply List.filter_eq_nil_iff.mpr
    intro p _
    cases h : (p.1 == sessionId) <;> simp [h]
  rw [List.filter_congr (by intro p _; rfl)] at h ⊢
  simp [h]

/-- `redis.del` is idempotent on the keyspace. -/
theorem redisDel_redisDel (st : Store) (sessionId : String) :
    redisDel (redisDel st sessionId) sessionId = redisDel st sessionId := by
  simp [redisDel, List.filter_filter]

/-- Lookup after save, stated at the (equal) key used for the lookup. -/
theorem getSession_saveSession_of (st : Store) (s : Session) (sid : String)
    (h : s.id = sid) : getSession (saveSession st s) sid = some s := by
  subst h
  exact getSession_saveSession st s

/-- `updateSession` on a present session merges and saves. -/
theorem updateSession_of_get {st : Store} {sid : String} {s : Session}
    (hget : getSession st sid = some s) (u : Updates) (now : Nat) :
    updateSession st sid u now =
      .ok (saveSession st (applyUpdates s u now), applyUpdates s u now) := by
  simp [updateSession, hget]

/-- Closed form of a driver run whose Council call succeeds: three
store writes (`analyzing`/10, `testing`/60 with the returned agents,
`completed`/100 with the returned report), the four progress events,
no error event, and the sandbox phase's calls and `test_results`. -/
theorem processReview_council_ok
    (env : Collaborators) (st : Store) (sid : String) (now : Nat)
    (s : Session) (cr : CouncilResponse)
    (hget : getSession st sid = some s) (hid : s.id = sid)
    (hc : env.council = .ok cr) :
    processReview env st sid now =
      (let s1 : Session := { s with status := "analyzing", progress := 10, updated_at := now }
       let s2 : Session := { s1 with
         status := "testing", progress := 60,
         agents := cr.agents.getD [], updated_at := now }
       let s3 : Session := { s2 with
         status := "completed", progress := 100,
         report := cr.report, updated_at := now }
       { store := saveSession (saveSession (saveSession st s1) s2) s3,
         history := [s1, s2, s3],
         events :=
           [{ status := "analyzing", progress := 10, message := "Starting review..." },
            { status := "analyzing", progress := 20, message := "Sending to Council agents..." },
            { status := "testing", progress := 60, message := "Running tests in sandbox..." },
            { status := "completed", progress := 100, message := "Review complete!",
              report := cr.report }],
         errorEvents := [],
         sandboxCalls := (sandboxPhase env s.language cr).1,
         test_results := (sandboxPhase env s.language cr).2 }) := by
  have h0 := updateSession_of_get hget
    { status := some "analyzing", progress := some 10 } now
  have hget1 : getSession
      (saveSession st (applyUpdates s { status := some "analyzing", progress := some 10 } now)) sid
      = some (applyUpdates s { status := some "analyzing", progress := some 10 } now) :=
    getSession_saveSession_of _ _ _ hid
  have h1 := updateSession_of_get hget1
    { status := some "testing", progress := some 60, agents := some (cr.agents.getD []) } now
  have hget2 :=
    getSession_saveSession_of
      (saveSession st (applyUpdates s { status := some "analyzing", progress := some 10 } now))
      (applyUpdates (applyUpdates s { status := some "analyzing", progress := some 10 } now)
        { status := some "testing", progress := some 60, agents := some (cr.agents.getD []) } now)
      sid hid
  have h2 := updateSession_of_get hget2
    { status := some "completed", progress := some 100, report := some cr.report } now
  simp only [processReview, hget, hc, h0, h1, h2]
  rfl

/-- Closed form of a driver run whose Council call fails: the
`analyzing`/10 write, the two early progress events, then the catch
block's `failed` write carrying the rethrown message; no sandbox call
is ever made. -/
theorem processReview_council_error
    (env : Collaborators) (st : Store) (sid : String) (now : Nat)
    (s : Session) (msg : String)
    (hget : getSession st sid = some s) (hid : s.id = sid)
    (hc : env.council = .error msg) :
    processReview env st sid now =
      (let s1 : Session := { s with status := "analyzing", progress := 10, updated_at := now }
       let sF : Session := { s1 with
         status := "failed",
         error := some ("Council service error: " ++ msg),
         updated_at := now }
       { store := saveSession (saveSession st s1) sF,
         history := [s1, sF],
         events :=
           [{ status := "analyzing", progress := 10, message := "Starting review..." },
            { status := "analyzing", progress := 20, message := "Sending to Council agents..." }],
         errorEvents := ["Council service error: " ++ msg],
         sandboxCalls := [], test_results := none }) := by
  have h0 := updateSession_of_get hget
    { status := some "analyzing", progress := some 10 } now
  have hget1 : getSession
      (saveSession st (applyUpdates s { status := some "analyzing", progress := some 10 } now)) sid
      = some (applyUpdates s { status := some "analyzing", progress := some 10 } now) :=
    getSession_saveSession_of _ _ _ hid
  have hF := updateSession_of_get hget1
    { status := some "failed", error := some ("Council service error: " ++ msg) } now
  simp only [processReview, hget, hc, catchPath, h0, hF]
  rfl

/-! Concrete fixtures used by counterexamples and witnesses. -/

/-- An empty Redis keyspace. -/
def emptyStore : Store := ([] : List (String × Session))

/-- A well-formed submission body. -/
def sampleRequest : SubmitRequest := { code := some "const x = 1" }

/-- A report with one critical and one low finding. -/
def sampleReport : Report :=
  { priority_fixes :=
      [{ severity := "critical", title := "eval use" },
       { severity := "low", title := "naming" }] }

/-- A single per-capability agent entry. -/
def qaAgent : Agent := { name := "qa", status := "completed", score := some 80 }

/-- Council success with runnable artifacts (generated tests). -/
def councilWithTests : CouncilResponse :=
  { agents := some [qaAgent]
    report := some sampleReport
    test_code := some "test code"
    code_files := [("index.js", "const x = 1")]
    test_files := [("index.test.js", "test code")] }

/-- Council success with no runnable artifacts but a report. -/
def councilNoTests : CouncilResponse :=
  { agents := some [qaAgent]
    report := some sampleReport
    test_code := none
    code_files := []
    test_files := [] }

/-- Council success with neither artifacts nor report nor agents. -/
def councilBare : CouncilResponse :=
  { agents := some []
    report := none
    test_code := none
    code_files := []
    test_files := [] }

/-- All collaborator calls succeed. -/
def envAllOk : Collaborators :=
  { council := .ok councilWithTests
    sandboxCreate := .ok "sb-1"
    sandboxExecute := .ok [{ command := "npm test", exit_code := 0, output := "ok" }]
    sandboxDelete := .ok () }

/-- The sandbox execute call times out. -/
def envExecFails : Collaborators :=
  { council := .ok councilWithTests
    sandboxCreate := .ok "sb-1"
    sandboxExecute := .error "timeout of 180000ms exceeded"
    sandboxDelete := .ok () }

/-- The sandbox create call is refused. -/
def envCreateFails : Collaborators :=
  { council := .ok councilWithTests
    sandboxCreate := .error "connect ECONNREFUSED"
    sandboxExecute := .ok []
    sandboxDelete := .ok () }

/-- Council succeeds without artifacts; sandbox would succeed. -/
def envNoArtifacts : Collaborators :=
  { council := .ok councilNoTests
    sandboxCreate := .ok "sb-1"
    sandboxExecute := .ok []
    sandboxDelete := .ok () }

/-- Council succeeds with a bare response (no report, no agents). -/
def envBare : Collaborators :=
  { council := .ok councilBare
    sandboxCreate := .ok "sb-1"
    sandboxExecute := .ok []
    sandboxDelete := .ok () }

/-- The Council call itself times out. -/
def envCouncilDown : Collaborators :=
  { council := .error "timeout of 120000ms exceeded"
    sandboxCreate := .ok "sb-1"
    sandboxExecute := .ok []
    sandboxDelete := .ok () }

/-- Full lifetime with a failing execute call. -/
def runC1 : Trace := (runReview sampleRequest envExecFails emptyStore "rev-1" 0).2

/-- Full lifetime with no runnable artifacts. -/
def runC2 : Trace := (runReview sampleRequest envNoArtifacts emptyStore "rev-1" 0).2

/-- Full lifetime with a refused create call. -/
def runC3 : Trace := (runReview sampleRequest envCreateFails emptyStore "rev-1" 0).2

/-- Full lifetime with a bare Council response. -/
def runC5 : Trace := (runReview sampleRequest envBare emptyStore "rev-1" 0).2

/-- Full lifetime with every collaborator succeeding. -/
def runOk : Trace := (runReview sampleRequest envAllOk emptyStore "rev-1" 0).2

/-- C1: FALSE as stated.  A run whose execute call times out provisions
a sandbox but never issues the release (`DELETE /sandbox/:id`) call:
the delete sits after the execute inside the same `try`, so the catch
path skips it, and the session still leaves the phase (completing). -/
theorem claim_C1_counterexample :
    provisionCount runC1 = 1 ∧ releaseCount runC1 = 0
    ∧ (getSession runC1.store "rev-1").map Session.status = some "completed"
    ∧ runC1.test_results =
        some (.errorObj "Sandbox service error: timeout of 180000ms exceeded") := by
  decide

/-- C1 (amended): in a run with runnable artifacts, the execution
handle is released exactly once when both the provisioning and the
execute call succeed, and not at all otherwise (in particular not when
the execute call fails or times out); the session completes either
way. -/
theorem claim_C1_release_only_on_success
    (env : Collaborators) (st : Store) (sid : String) (now : Nat)
    (s : Session) (cr : CouncilResponse) (tc : String)
    (hget : getSession st sid = some s) (hid : s.id = sid)
    (hc : env.council = .ok cr) (htc : cr.test_code = some tc) :
    releaseCount (processReview env st sid now) =
      (match env.sandboxCreate, env.sandboxExecute with
       | .ok _, .ok _ => 1
       | _, _ => 0)
    ∧ (getSession (processReview env st sid now).store sid).map Session.status
        = some "completed" := by
  rw [processReview_council_ok env st sid now s cr hget hid hc]
  dsimp only
  constructor
  · simp only [releaseCount, sandboxPhase, htc]
    rcases env.sandboxCreate with msg | sbid
    · simp [List.filter]
    · rcases env.sandboxExecute with msg2 | res
      · simp [List.filter]
      · rcases env.sandboxDelete with msg3 | u <;> simp [List.filter]
  · rw [getSession_saveSession_of _ _ _ (by exact hid)]
    rfl

/-- C1 witness: the amended theorem applied to the timing-out execute
environment. -/
theorem claim_C1_witness :
    releaseCount (processReview envExecFails
        ((submit sampleRequest emptyStore "rev-1" 0).2) "rev-1" 0) =
      (match envExecFails.sandboxCreate, envExecFails.sandboxExecute with
       | .ok _, .ok _ => 1
       | _, _ => 0)
    ∧ (getSession (processReview envExecFails
        ((submit sampleRequest emptyStore "rev-1" 0).2) "rev-1" 0).store "rev-1").map
          Session.status = some "completed" :=
  claim_C1_release_only_on_success envExecFails
    ((submit sampleRequest emptyStore "rev-1" 0).2) "rev-1" 0
    (submitSession sampleRequest "rev-1" 0) councilWithTests "test code"
    rfl rfl rfl rfl

/-- C2: FALSE as stated.  Even when the analysis result carries no
runnable artifacts, the stored session passes through the
executing/`testing` state: the driver writes `status: testing` before
it checks `test_code`.  (No sandbox call is made, and the session then
completes.) -/
theorem claim_C2_counterexample :
    runC2.history.map Session.status = ["pending", "analyzing", "testing", "completed"]
    ∧ runC2.sandboxCalls = [] := by
  decide

/-- C2 (amended): after analysis success the session is always stored
as `testing`/60 regardless of artifacts; when no runnable artifacts
were produced, no sandbox call is made and the next stored state is
directly `completed`. -/
theorem claim_C2_testing_always_stored
    (env : Collaborators) (st : Store) (sid : String) (now : Nat)
    (s : Session) (cr : CouncilResponse)
    (hget : getSession st sid = some s) (hid : s.id = sid)
    (hc : env.council = .ok cr) (htc : cr.test_code = none) :
    (processReview env st sid now).sandboxCalls = []
    ∧ (processReview env st sid now).history.map Session.status
        = ["analyzing", "testing", "completed"] := by
  rw [processReview_council_ok env st sid now s cr hget hid hc]
  dsimp only
  constructor
  · simp [sandboxPhase, htc]
  · rfl

/-- C2 witness: the amended theorem applied to the artifact-free
Council response. -/
theorem claim_C2_witness :
    (processReview envNoArtifacts
        ((submit sampleRequest emptyStore "rev-1" 0).2) "rev-1" 0).sandboxCalls = []
    ∧ (processReview envNoArtifacts
        ((submit sampleRequest emptyStore "rev-1" 0).2) "rev-1" 0).history.map
          Session.status = ["analyzing", "testing", "completed"] :=
  claim_C2_testing_always_stored envNoArtifacts
    ((submit sampleRequest emptyStore "rev-1" 0).2) "rev-1" 0
    (submitSession sampleRequest "rev-1" 0) councilNoTests
    rfl rfl rfl rfl

/-- C3: FALSE as stated.  A transport error from the execution
collaborator (here: connection refused on the create call) does not
fail the session: the inner catch records it in `test_results` and the
session transitions to `completed` with no error event. -/
theorem claim_C3_counterexample :
    (getSession runC3.store "rev-1").map Session.status = some "completed"
    ∧ runC3.errorEvents = []
    ∧ runC3.test_results = some (.errorObj "Sandbox service error: connect ECONNREFUSED") := by
  decide

/-- C3 (amended): transport errors from the execution collaborator are
absorbed, not fatal: whether the create or the execute call fails, the
error is recorded as `test_results = {error}` and the session still
transitions to `completed` with no error event. -/
theorem claim_C3_exec_transport_error_absorbed
    (env : Collaborators) (st : Store) (sid : String) (now : Nat)
    (s : Session) (cr : CouncilResponse) (tc msg : String)
    (hget : getSession st sid = some s) (hid : s.id = sid)
    (hc : env.council = .ok cr) (htc : cr.test_code = some tc)
    (hfail : env.sandboxCreate = .error msg ∨
      (∃ sb, env.sandboxCreate = .ok sb ∧ env.sandboxExecute = .error msg)) :
    (getSession (processReview env st sid now).store sid).map Session.status
        = some "completed"
    ∧ (processReview env st sid now).errorEvents = []
    ∧ (processReview env st sid now).test_results =
        some (.errorObj ("Sandbox service error: " ++ msg)) := by
  rw [processReview_council_ok env st sid now s cr hget hid hc]
  dsimp only
  refine ⟨?_, rfl, ?_⟩
  · rw [getSession_saveSession_of _ _ _ (by exact hid)]
    rfl
  · rcases hfail with hcr | ⟨sb, hcr, hex⟩
    · simp [sandboxPhase, htc, hcr]
    · simp [sandboxPhase, htc, hcr, hex]

/-- C3 witness: the amended theorem applied to the refused create
call. -/
theorem claim_C3_witness :
    (getSession (processReview envCreateFails
        ((submit sampleRequest emptyStore "rev-1" 0).2) "rev-1" 0).store "rev-1").map
          Session.status = some "completed"
    ∧ (processReview envCreateFails
        ((submit sampleRequest emptyStore "rev-1" 0).2) "rev-1" 0).errorEvents = []
    ∧ (processReview envCreateFails
        ((submit sampleRequest emptyStore "rev-1" 0).2) "rev-1" 0).test_results =
        some (.errorObj ("Sandbox service error: " ++ "connect ECONNREFUSED")) :=
  claim_C3_exec_transport_error_absorbed envCreateFails
    ((submit sampleRequest emptyStore "rev-1" 0).2) "rev-1" 0
    (submitSession sampleRequest "rev-1" 0) councilWithTests
    "test code" "connect ECONNREFUSED"
    rfl rfl rfl rfl (.inl rfl)

/-- A submission carrying an explicitly empty capability set. -/
def emptyGatesRequest : SubmitRequest :=
  { code := some "const x = 1", quality_gates := some [] }

/-- C4: FALSE as stated.  A submission with an empty capability set is
accepted (only `code` is validated) and a `pending` session carrying
the empty capability set is created in the store. -/
theorem claim_C4_counterexample :
    (submit emptyGatesRequest emptyStore "rev-2" 0).1 =
      .ok "rev-2" "pending" "Review started"
    ∧ getSession (submit emptyGatesRequest emptyStore "rev-2" 0).2 "rev-2" =
        some (submitSession emptyGatesRequest "rev-2" 0)
    ∧ (submitSession emptyGatesRequest "rev-2" 0).quality_gates = [] := by
  decide

/-- C4 (amended): Submit rejects exactly the requests whose code is
absent or the empty string; the capability set is never validated —
any `quality_gates` value, the empty set included, is accepted and the
session is created with it. -/
theorem claim_C4_only_code_validated
    (req : SubmitRequest) (st : Store) (sid : String) (now : Nat) :
    ((submit req st sid now).1 = .badRequest "Code is required" ↔
      (req.code = none ∨ req.code = some ""))
    ∧ (¬(req.code = none ∨ req.code = some "") →
        getSession (submit req st sid now).2 sid = some (submitSession req sid now)) := by
  by_cases h : req.code = none ∨ req.code = some ""
  · simp [submit, h]
  · constructor
    · simp [submit, h]
    · intro _
      simp only [submit, if_neg h]
      exact getSession_saveSession_of _ _ _ rfl

/-- C4 witness: the amended theorem applied to the empty capability
set submission. -/
theorem claim_C4_witness :
    getSession (submit emptyGatesRequest emptyStore "rev-2" 0).2 "rev-2" =
      some (submitSession emptyGatesRequest "rev-2" 0) :=
  (claim_C4_only_code_validated emptyGatesRequest emptyStore "rev-2" 0).2 (by decide)

/-- Council fix response fixture. -/
def sampleFixResponse : FixResponse :=
  { fixes_applied := 1, fixed_code := "const y = 2", changes := ["swap"],
    needs_review := false }

/-- A fix-capability oracle that always succeeds. -/
def alwaysOkFix : List Finding → Except String FixResponse :=
  fun _ => .ok sampleFixResponse

/-- The completed session produced by the all-success lifetime
`runOk`. -/
def completedSession : Session :=
  { id := "rev-1", code := "const x = 1", language := "javascript", context := ""
    quality_gates := ["qa", "security", "performance"], status := "completed"
    progress := 100, agents := [qaAgent], report := some sampleReport, error := none
    created_at := 0, updated_at := 0 }

/-- C5: FALSE as stated.  A session can reach `completed` while its
Council response carried no report; the fix route then rejects it with
`'No report available'`, so RequestFix errors on a Completed
session. -/
theorem claim_C5_counterexample :
    (getSession runC5.store "rev-1").map Session.status = some "completed"
    ∧ (requestFix alwaysOkFix runC5.store "rev-1" none).1 =
        .noReport "No report available" := by
  decide

/-- C5 (amended): for an existing session, RequestFix rejects with
`'No report available'` exactly when the session's report is absent
(the gate is report presence, not the `Completed` state); when a
report is present, the findings forwarded to the fix capability are
exactly the report's `priority_fixes` filtered to the requested
severities (default `critical`/`high`). -/
theorem claim_C5_error_iff_no_report
    (f : List Finding → Except String FixResponse) (st : Store) (sid : String)
    (p : Option (List String)) (s : Session)
    (hget : getSession st sid = some s) :
    ((requestFix f st sid p).1 = .noReport "No report available" ↔ s.report = none)
    ∧ (∀ rep, s.report = some rep →
        (requestFix f st sid p).2 =
          some (rep.priority_fixes.filter
            (fun fd => (p.getD ["critical", "high"]).contains fd.severity))) := by
  rcases hrep : s.report with _ | rep
  · simp [requestFix, hget, hrep]
  · constructor
    · rcases hf : f (rep.priority_fixes.filter
          fun fd => (p.getD ["critical", "high"]).contains fd.severity) with e | r <;>
        simp only [requestFix, hget, hrep, hf] <;> simp
    · intro rep2 h2
      injection h2 with h2
      subst h2
      rcases hf : f (rep.priority_fixes.filter
          fun fd => (p.getD ["critical", "high"]).contains fd.severity) with e | r <;>
        simp only [requestFix, hget, hrep, hf]

/-- C5 witness: the amended theorem applied to the all-success
lifetime's completed session, default severity filter. -/
theorem claim_C5_witness :
    (requestFix alwaysOkFix runOk.store "rev-1" none).2 =
      some (sampleReport.priority_fixes.filter
        (fun fd => ((none : Option (List String)).getD ["critical", "high"]).contains
          fd.severity)) :=
  (claim_C5_error_iff_no_report alwaysOkFix runOk.store "rev-1" none
    completedSession (by decide)).2 sampleReport (by decide)

/-- C6: CONFIRMED.  A valid submission synchronously stores the
session as `pending` with progress 0, so a status poll on the store
returned by Submit — before any driver step has run — answers
`pending`/0 with an empty capability-status list. -/
theorem claim_C6_pending_immediately
    (req : SubmitRequest) (st : Store) (sid : String) (now : Nat)
    (h1 : req.code ≠ none) (h2 : req.code ≠ some "") :
    (submit req st sid now).1 = .ok sid "pending" "Review started"
    ∧ getStatus (submit req st sid now).2 sid = .ok sid "pending" 0 [] := by
  have hcond : ¬(req.code = none ∨ req.code = some "") := by
    rintro (h | h)
    exacts [h1 h, h2 h]
  constructor
  · simp [submit, hcond]
  · simp only [submit, if_neg hcond]
    unfold getStatus
    rw [getSession_saveSession_of _ _ _ (by exact rfl)]
    rfl

/-- C6 witness: the theorem applied to the sample submission. -/
theorem claim_C6_witness :
    (submit sampleRequest emptyStore "rev-1" 0).1 = .ok "rev-1" "pending" "Review started"
    ∧ getStatus (submit sampleRequest emptyStore "rev-1" 0).2 "rev-1" =
        .ok "rev-1" "pending" 0 [] :=
  claim_C6_pending_immediately sampleRequest emptyStore "rev-1" 0
    (by decide) (by decide)

/-- C7: FALSE as stated.  A session that reaches `completed` can have
a null report and an agents list (the per-capability statuses) that
does not contain the requested capabilities at all: both are copied
from the Council response — here empty agents and no report against
three requested capabilities. -/
theorem claim_C7_counterexample :
    (getSession runC5.store "rev-1").map Session.status = some "completed"
    ∧ (getSession runC5.store "rev-1").map Session.quality_gates =
        some ["qa", "security", "performance"]
    ∧ (getSession runC5.store "rev-1").map Session.agents = some []
    ∧ (getSession runC5.store "rev-1").map Session.report = some none := by
  decide

/-- C7 (amended): a completed session's `report` is exactly the
Council response's report (possibly absent) and its per-capability
status list is exactly the Council response's agents list (defaulted
to empty), while the requested capability set is kept unchanged; no
containment relation between the two is enforced. -/
theorem claim_C7_completed_fields_from_council
    (env : Collaborators) (st : Store) (sid : String) (now : Nat)
    (s : Session) (cr : CouncilResponse)
    (hget : getSession st sid = some s) (hid : s.id = sid)
    (hc : env.council = .ok cr) :
    (getSession (processReview env st sid now).store sid).map Session.status
        = some "completed"
    ∧ (getSession (processReview env st sid now).store sid).map Session.report
        = some cr.report
    ∧ (getSession (processReview env st sid now).store sid).map Session.agents
        = some (cr.agents.getD [])
    ∧ (getSession (processReview env st sid now).store sid).map Session.quality_gates
        = some s.quality_gates := by
  rw [processReview_council_ok env st sid now s cr hget hid hc]
  dsimp only
  rw [getSession_saveSession_of _ _ _ (by exact hid)]
  exact ⟨rfl, rfl, rfl, rfl⟩

/-- C7 witness: the amended theorem applied to the bare Council
response (empty agents, no report). -/
theorem claim_C7_witness :
    (getSession (processReview envBare
        ((submit sampleRequest emptyStore "rev-1" 0).2) "rev-1" 0).store "rev-1").map
          Session.status = some "completed"
    ∧ (getSession (processReview envBare
        ((submit sampleRequest emptyStore "rev-1" 0).2) "rev-1" 0).store "rev-1").map
          Session.report = some councilBare.report
    ∧ (getSession (processReview envBare
        ((submit sampleRequest emptyStore "rev-1" 0).2) "rev-1" 0).store "rev-1").map
          Session.agents = some (councilBare.agents.getD [])
    ∧ (getSession (processReview envBare
        ((submit sampleRequest emptyStore "rev-1" 0).2) "rev-1" 0).store "rev-1").map
          Session.quality_gates = some (submitSession sampleRequest "rev-1" 0).quality_gates :=
  claim_C7_completed_fields_from_council envBare
    ((submit sampleRequest emptyStore "rev-1" 0).2) "rev-1" 0
    (submitSession sampleRequest "rev-1" 0) councilBare rfl rfl rfl

/-- C8: CONFIRMED.  Over a full session lifetime (submission plus its
single background driver run), the stored progress values and the
progress values of the events delivered to a subscriber are
monotonically non-decreasing and stay within 0-100, whatever the
collaborators do: stored 0,10,60,100 on success, 0,10,10 on failure
(the failed write keeps the last recorded progress); emitted
10,20,60,100 or a prefix. -/
theorem claim_C8_progress_monotone
    (req : SubmitRequest) (env : Collaborators) (st : Store) (sid : String) (now : Nat) :
    List.Chain' (· ≤ ·) (((runReview req env st sid now).2).history.map Session.progress)
    ∧ ((((runReview req env st sid now).2).history.map Session.progress).all
        (fun p => p ≤ 100)) = true
    ∧ List.Chain' (· ≤ ·)
        (((runReview req env st sid now).2).events.map ProgressEvent.progress)
    ∧ ((((runReview req env st sid now).2).events.map ProgressEvent.progress).all
        (fun p => p ≤ 100)) = true := by
  by_cases hcode : req.code = none ∨ req.code = some ""
  · unfold runReview
    rw [show submit req st sid now = (.badRequest "Code is required", st) from by
      simp [submit, hcode]]
    simp
  · unfold runReview
    rw [show submit req st sid now =
        (.ok sid "pending" "Review started", saveSession st (submitSession req sid now)) from by
      simp [submit, hcode]]
    dsimp only
    rcases hc : env.council with msg | cr
    · rw [processReview_council_error env _ sid now (submitSession req sid now) msg
        (getSession_saveSession_of _ _ _ (by exact rfl)) rfl hc]
      simp [submitSession, List.chain'_cons]
    · rw [processReview_council_ok env _ sid now (submitSession req sid now) cr
        (getSession_saveSession_of _ _ _ (by exact rfl)) rfl hc]
      simp [submitSession, List.chain'_cons]

/-- C9: CONFIRMED.  Delete is idempotent: deleting twice returns the
same acknowledgement and leaves the same keyspace, and a status poll
after either delete answers `NotFound` (for any id, present or
not). -/
theorem claim_C9_delete_idempotent (st : Store) (sid : String) :
    (deleteReview st sid).2 = (deleteReview (deleteReview st sid).1 sid).2
    ∧ (deleteReview (deleteReview st sid).1 sid).1 = (deleteReview st sid).1
    ∧ getStatus (deleteReview st sid).1 sid = .notFound "Session not found"
    ∧ getStatus (deleteReview (deleteReview st sid).1 sid).1 sid =
        .notFound "Session not found" := by
  refine ⟨rfl, ?_, ?_, ?_⟩ <;>
    simp [deleteReview, getStatus, getSession_redisDel, redisDel_redisDel]

/-- C10: CONFIRMED.  The transition into `Failed` (the catch block of
the driver, reached when the Council call fails) rewrites only
`status`, `error` and `updated_at`: every other field, `progress`
included, keeps the value of the pre-failure record (`analyzing`/10),
so a failed session retains its last recorded progress of 10 rather
than having it reset. -/
theorem claim_C10_failed_frame
    (env : Collaborators) (st : Store) (sid : String) (now : Nat)
    (s : Session) (msg : String)
    (hget : getSession st sid = some s) (hid : s.id = sid)
    (hc : env.council = .error msg) :
    (processReview env st sid now).history =
      [{ s with status := "analyzing", progress := 10, updated_at := now },
       { s with
          status := "failed", progress := 10,
          error := some ("Council service error: " ++ msg), updated_at := now }]
    ∧ getSession (processReview env st sid now).store sid =
        some { s with
          status := "failed", progress := 10,
          error := some ("Council service error: " ++ msg), updated_at := now } := by
  rw [processReview_council_error env st sid now s msg hget hid hc]
  dsimp only
  constructor
  · rfl
  · rw [getSession_saveSession_of _ _ _ (by exact hid)]

/-- C10 witness: the theorem applied to a timing-out Council call. -/
theorem claim_C10_witness :
    (processReview envCouncilDown
        ((submit sampleRequest emptyStore "rev-1" 0).2) "rev-1" 0).history =
      [{ submitSession sampleRequest "rev-1" 0 with
          status := "analyzing", progress := 10, updated_at := 0 },
       { submitSession sampleRequest "rev-1" 0 with
          status := "failed", progress := 10,
          error := some ("Council service error: " ++ "timeout of 120000ms exceeded"),
          updated_at := 0 }]
    ∧ getSession (processReview envCouncilDown
        ((submit sampleRequest emptyStore "rev-1" 0).2) "rev-1" 0).store "rev-1" =
        some { submitSession sampleRequest "rev-1" 0 with
          status := "failed", progress := 10,
          error := some ("Council service error: " ++ "timeout of 120000ms exceeded"),
          updated_at := 0 } :=
  claim_C10_failed_frame envCouncilDown
    ((submit sampleRequest emptyStore "rev-1" 0).2) "rev-1" 0
    (submitSession sampleRequest "rev-1" 0) "timeout of 120000ms exceeded"
    rfl rfl rfl

end Bridge
